import Mathlib

/-!
Verification of the blogging backend's auth core and post/user handlers.

Shallow embedding conventions:
* instants and durations are integers counting seconds since the epoch
  (the `exp` claim convention of the token payload);
* a Python `timedelta | None` argument is `Option Int` (seconds); Python
  truthiness of such a value (`if expires_delta:`) is falsy exactly for
  `None` and the zero delta;
* a JWT string is `Token`: either `malformed` (undecodable / tampered)
  or `signed payload secret alg`, recording which key and algorithm
  produced its signature — the signature verifies iff they match the
  configured ones;
* the database is explicit state (`List User`, `List Post`) threaded
  through handlers; a handler returns `Except HTTPError α` and the
  (possibly updated) post store;
* raising `HTTPException` is returning `Except.error` with the status,
  detail and optional WWW-Authenticate header value.
-/

namespace Blog

/-- Process-wide configuration (config.settings). -/
structure Settings where
  secret_key : String
  algorithm : String
  access_token_expire_minutes : Int
  deriving Repr, DecidableEq

/-- A JWT claim set: the fields this application reads or requires.
`sub` is the subject claim, `exp` the absolute expiry instant in
seconds since the epoch. -/
structure Payload where
  sub : Option String
  exp : Option Int
  deriving Repr, DecidableEq

/-- A JWT string as seen by `jwt.decode`: either undecodable
(tampered / not three segments / bad JSON), or a decodable token whose
signature was produced with the recorded secret and algorithm. -/
inductive Token where
  | malformed : Token
  | signed : Payload → String → String → Token
  deriving Repr, DecidableEq

/-- Python truthiness of a `timedelta | None` value: `None` and
`timedelta(0)` are falsy, every other delta is truthy. -/
def timedeltaTruthy : Option Int → Bool
  | none => false
  | some d => d ≠ 0

/-- auth.create_access_token: copy the claims, set `exp` to
`now + expires_delta` when `expires_delta` is truthy and to
`now + settings.access_token_expire_minutes` minutes otherwise, and sign
with the configured secret and algorithm.  (`if expires_delta:` is a
truthiness test, so the zero delta also selects the default expiry.) -/
def create_access_token (s : Settings) (now : Int) (data : Payload)
    (expires_delta : Option Int) : Token :=
  let expire : Int :=
    if timedeltaTruthy expires_delta then now + expires_delta.getD 0
    else now + s.access_token_expire_minutes * 60
  Token.signed { data with exp := some expire } s.secret_key s.algorithm

/-- auth.verify_access_token: `jwt.decode` with
`options={require: [exp, sub]}` checks the signature against the
configured secret and algorithm, requires `exp` and `sub` to be present,
and rejects an expiry that is not in the future (PyJWT raises
ExpiredSignatureError when `exp <= now`); every `InvalidTokenError` is
caught and mapped to `None`, otherwise the subject claim is returned. -/
def verify_access_token (s : Settings) (now : Int) (t : Token) :
    Option String :=
  match t with
  | Token.malformed => none
  | Token.signed payload secret alg =>
    if secret = s.secret_key ∧ alg = s.algorithm then
      match payload.exp, payload.sub with
      | some e, some _ => if e ≤ now then none else payload.sub
      | _, _ => none
    else none

/-- models.User as used by the handlers: numeric id, username, email,
opaque password hash. -/
structure User where
  id : Int
  username : String
  email : String
  password_hash : String
  deriving Repr, DecidableEq

/-- models.Post as used by the handlers: numeric id, title, content,
creation timestamp, owning user id. -/
structure Post where
  id : Int
  title : String
  content : String
  date_posted : Int
  user_id : Int
  deriving Repr, DecidableEq

/-- An HTTPException surfaced to the caller: status code, detail
message, and the value of the WWW-Authenticate header when one is set. -/
structure HTTPError where
  status : Nat
  detail : String
  www_authenticate : Option String
  deriving Repr, DecidableEq

/-- schemas.PostUpdate: full update body, both fields required. -/
structure PostUpdate where
  title : String
  content : String
  deriving Repr, DecidableEq

/-- schemas.PostUpdatePartial (named PostPatch here): both fields
optional; an absent field is `none`. -/
structure PostPatch where
  title : Option String
  content : Option String
  deriving Repr, DecidableEq

/-- schemas.UserPrivate: the response model of GET /users/me — its only
field is the email address. -/
structure UserPrivate where
  email : String
  deriving Repr, DecidableEq

/-- Serialization of a user row through response_model=UserPrivate:
pydantic keeps exactly the fields the schema declares. -/
def UserPrivate.from_user (u : User) : UserPrivate :=
  { email := u.email }

/-- schemas.Token: the login response body. -/
structure TokenOut where
  access_token : Token
  token_type : String
  deriving Repr, DecidableEq

/-- The numeric value of a decimal digit character, or `none`. -/
def digit? (c : Char) : Option Nat :=
  if '0'.toNat ≤ c.toNat ∧ c.toNat ≤ '9'.toNat then
    some (c.toNat - '0'.toNat)
  else none

/-- Value of a run of decimal digit characters extending `acc`;
`none` as soon as a non-digit appears. -/
def py_digits_aux (acc : Nat) : List Char → Option Nat
  | [] => some acc
  | c :: cs =>
    match digit? c with
    | some d => py_digits_aux (acc * 10 + d) cs
    | none => none

/-- Value of a nonempty all-digit character list, else `none`. -/
def py_digits : List Char → Option Nat
  | [] => none
  | c :: cs =>
    match digit? c with
    | some d => py_digits_aux d cs
    | none => none

/-- Model of Python `int(s)` on subject strings: an optional sign
followed by one or more decimal digits.  (Python additionally strips
whitespace and allows digit-group underscores; no subject string
produced or tested here uses those forms.) -/
def py_int (sv : String) : Option Int :=
  match sv.data with
  | '-' :: cs => (py_digits cs).map (fun n => -(n : Int))
  | '+' :: cs => (py_digits cs).map (fun n => (n : Int))
  | cs => (py_digits cs).map (fun n => (n : Int))

/-- ASCII lowercasing of one character (the email strings compared
here are ASCII). -/
def lower_char (c : Char) : Char :=
  if 'A'.toNat ≤ c.toNat ∧ c.toNat ≤ 'Z'.toNat then
    Char.ofNat (c.toNat + 32)
  else c

/-- Model of the lowercasing applied on both sides of the email
comparison (SQL `lower` and Python `str.lower`), on ASCII strings. -/
def py_lower (sv : String) : String :=
  String.mk (sv.data.map lower_char)

/-- routers/users.login_for_access_token (POST /users/token): look the
user up by case-insensitively matching email against the form's
username field; if no user matches or the password does not verify,
raise 401 with one generic message and a WWW-Authenticate header;
otherwise issue a token whose subject is the user id and whose expiry
delta is the configured TTL.  `vp` abstracts pwdlib's
`verify_password`. -/
def login_for_access_token (vp : String → String → Bool) (s : Settings)
    (now : Int) (db : List User) (form_username form_password : String) :
    Except HTTPError TokenOut :=
  match db.find? (fun u => py_lower u.email == py_lower form_username) with
  | none =>
    Except.error ⟨401, "Incorrect email or password", some "Bearer"⟩
  | some user =>
    if ¬ vp form_password user.password_hash then
      Except.error ⟨401, "Incorrect email or password", some "Bearer"⟩
    else
      Except.ok
        { access_token := create_access_token s now
            { sub := some (toString user.id), exp := none }
            (some (s.access_token_expire_minutes * 60)),
          token_type := "bearer" }

/-- routers/users.get_current_user (GET /users/me): verify the bearer
token (401 on failure), parse the subject as an integer user id (401 on
failure, same message), look the user up by id (401, its own message,
when absent), otherwise return the user row. -/
def get_current_user (s : Settings) (now : Int) (db : List User)
    (token : Token) : Except HTTPError User :=
  match verify_access_token s now token with
  | none =>
    Except.error ⟨401, "Invalid or expired token", some "Bearer"⟩
  | some user_id =>
    match py_int user_id with
    | none =>
      Except.error ⟨401, "Invalid or expired token", some "Bearer"⟩
    | some user_id_int =>
      match db.find? (fun u => u.id == user_id_int) with
      | none => Except.error ⟨401, "User not found", some "Bearer"⟩
      | some user => Except.ok user

/-- The serialized response of GET /users/me: the resolved user pushed
through response_model=UserPrivate. -/
def get_current_user_response (s : Settings) (now : Int) (db : List User)
    (token : Token) : Except HTTPError UserPrivate :=
  (get_current_user s now db token).map UserPrivate.from_user

/-- routers/posts.update_post (PUT /posts/post_id): load the post by id
(404 when absent), reject a caller whose id differs from the post's
owner (403), otherwise overwrite title and content from the body and
commit.  Returns the response and the post store after the request. -/
def update_post (db : List Post) (current_user_id : Int) (post_id : Int)
    (post_data : PostUpdate) : Except HTTPError Post × List Post :=
  match db.find? (fun p => p.id == post_id) with
  | none => (Except.error ⟨404, "Post not found", none⟩, db)
  | some post =>
    if current_user_id ≠ post.user_id then
      (Except.error
        ⟨403, "You are not authorized to update this post", none⟩, db)
    else
      let post' :=
        { post with title := post_data.title, content := post_data.content }
      (Except.ok post',
        db.map (fun p => if p.id == post_id then post' else p))

/-- Applying a PostPatch to a loaded post row:
`model_dump(exclude_unset=True)` keeps exactly the provided fields, and
the setattr loop overwrites each of them on the row. -/
def apply_patch (post : Post) (pd : PostPatch) : Post :=
  let post :=
    match pd.title with
    | some t => { post with title := t }
    | none => post
  match pd.content with
  | some c => { post with content := c }
  | none => post

/-- routers/posts.update_post_partial (PATCH /posts/post_id, named
patch_post here): load the post by id (404 when absent), reject a
caller whose id differs from the post's owner (403), otherwise setattr
each field present in the body and commit. -/
def patch_post (db : List Post) (current_user_id : Int) (post_id : Int)
    (post_data : PostPatch) : Except HTTPError Post × List Post :=
  match db.find? (fun p => p.id == post_id) with
  | none => (Except.error ⟨404, "Post not found", none⟩, db)
  | some post =>
    if current_user_id ≠ post.user_id then
      (Except.error
        ⟨403, "You are not authorized to update this post", none⟩, db)
    else
      let post' := apply_patch post post_data
      (Except.ok post',
        db.map (fun p => if p.id == post_id then post' else p))

/-- routers/posts.delete_post (DELETE /posts/post_id): load the post by
id (404 when absent), reject a caller whose id differs from the post's
owner (403), otherwise delete the row and commit (204, empty body). -/
def delete_post (db : List Post) (current_user_id : Int) (post_id : Int) :
    Except HTTPError Unit × List Post :=
  match db.find? (fun p => p.id == post_id) with
  | none => (Except.error ⟨404, "Post not found", none⟩, db)
  | some post =>
    if current_user_id ≠ post.user_id then
      (Except.error
        ⟨403, "You are not authorized to delete this post", none⟩, db)
    else
      (Except.ok (), db.filter (fun p => ¬ p.id == post.id))

/-- Modelled from the spec: the `CurrentUser` dependency imported by
routers/posts.py is not among the provided sources; section 4.3
(Identity Resolver) specifies it: absence of a bearer token in the
request is a hard Unauthorized failure, and otherwise the token is
verified, the subject parsed as an integer user id, and the user looked
up — each failure mapped to Unauthorized — exactly the body of
get_current_user.  The dependency runs before the handler it guards. -/
def resolve_current_user (s : Settings) (now : Int) (db : List User)
    (auth_token : Option Token) : Except HTTPError User :=
  match auth_token with
  | none => Except.error ⟨401, "Not authenticated", some "Bearer"⟩
  | some token => get_current_user s now db token

/-- A full DELETE /posts/post_id request: the CurrentUser dependency
resolves the caller first (its failure is the response and the store is
untouched), then the handler body runs with the resolved caller. -/
def delete_post_request (s : Settings) (now : Int) (users : List User)
    (posts : List Post) (auth_token : Option Token) (post_id : Int) :
    Except HTTPError Unit × List Post :=
  match resolve_current_user s now users auth_token with
  | Except.error e => (Except.error e, posts)
  | Except.ok u => delete_post posts u.id post_id

/-- Projection of the attributes of a post that are fixed at creation:
id, creation timestamp, owning user id. -/
def frame_fields (p : Post) : Int × Int × Int :=
  (p.id, p.date_posted, p.user_id)

/-- Concrete configuration used by witnesses. -/
def s0 : Settings :=
  { secret_key := "supersecret", algorithm := "HS256",
    access_token_expire_minutes := 30 }

/-- Concrete user row used by witnesses. -/
def u0 : User :=
  { id := 7, username := "alice", email := "alice@example.com",
    password_hash := "h0" }

/-- Concrete post row used by witnesses. -/
def p0 : Post :=
  { id := 1, title := "t0", content := "c0", date_posted := 100,
    user_id := 7 }

/-- A second concrete user row, sharing u0's email address. -/
def u1 : User :=
  { id := 9, username := "bob", email := "alice@example.com",
    password_hash := "h1" }

/-- A token for subject "7" issued under s0 at instant 0 with a
60-second expiry delta, used by witnesses. -/
def tok7 : Token :=
  create_access_token s0 0 { sub := some "7", exp := none } (some 60)

end Blog

namespace Blog

/-- C1: the claim says a token issued with a zero expiry delta fails
verification; in the code `if expires_delta:` is a Python truthiness
test and `timedelta(0)` is falsy, so a zero delta silently falls back
to the configured default TTL (30 minutes here) and the token verifies
successfully before that default expiry — here immediately, at the
very instant of issuance. -/
theorem ttl_zero_token_still_verifies :
    verify_access_token s0 1000
      (create_access_token s0 1000 { sub := some "42", exp := none }
        (some 0)) = some "42" := by
  rfl

/-- C2: issuing a token with claims sub = "42" and any positive ttl,
then verifying at any instant before the expiry now + ttl, succeeds and
returns the subject "42". -/
theorem issue_verify_roundtrip (s : Settings) (now t ttl : Int)
    (hpos : 0 < ttl) (ht : t < now + ttl) :
    verify_access_token s t
      (create_access_token s now { sub := some "42", exp := none }
        (some ttl)) = some "42" := by
  have hne : ttl ≠ 0 := ne_of_gt hpos
  simp only [create_access_token, verify_access_token, timedeltaTruthy,
    Option.getD_some, if_pos (And.intro rfl rfl)]
  simp [hne]
  omega

/-- Witness for C2 at s0, issuance instant 0, ttl 60, verification
instant 30. -/
theorem issue_verify_roundtrip_witness :
    (0 : Int) < 60 ∧ (30 : Int) < 0 + 60 ∧
    verify_access_token s0 30
      (create_access_token s0 0 { sub := some "42", exp := none }
        (some 60)) = some "42" :=
  ⟨by decide, by decide,
    issue_verify_roundtrip s0 0 30 60 (by decide) (by decide)⟩

/-- C3: verification succeeds with subject sub exactly when the token
decodes, its signature was made with the configured secret and
algorithm, both an expiry and a subject claim are present, and the
expiry is still in the future; every other input — malformed token,
wrong key or algorithm, missing exp or sub, expiry not in the future —
yields the explicit negative result `none`, and the function is total,
so no exception escapes. -/
theorem verify_access_token_characterization (s : Settings) (now : Int)
    (t : Token) (sub : String) :
    verify_access_token s now t = some sub ↔
      ∃ p e, t = Token.signed p s.secret_key s.algorithm ∧
        p.exp = some e ∧ p.sub = some sub ∧ now < e := by
  cases t with
  | malformed =>
    simp [verify_access_token]
  | signed p secret alg =>
    constructor
    · intro h
      by_cases hsig : secret = s.secret_key ∧ alg = s.algorithm
      · cases hexp : p.exp with
        | none =>
          simp [verify_access_token, hsig.1, hsig.2, hexp] at h
        | some e =>
          cases hsub : p.sub with
          | none =>
            simp [verify_access_token, hsig.1, hsig.2, hexp, hsub] at h
          | some sv =>
            by_cases hle : e ≤ now
            · simp [verify_access_token, hsig.1, hsig.2, hexp, hsub,
                hle] at h
            · simp [verify_access_token, hsig.1, hsig.2, hexp, hsub,
                hle] at h
              exact ⟨p, e, by rw [hsig.1, hsig.2], hexp,
                by rw [hsub, h], by omega⟩
      · simp [verify_access_token, hsig] at h
    · rintro ⟨q, e, heq, hexp, hsub, hlt⟩
      cases heq
      have hle : ¬ e ≤ now := by omega
      simp [verify_access_token, hexp, hsub, hle]

/-- C4 counterexample: the claim says every Unauthorized cause of
GET /users/me carries one uniform message; in the code the
invalid-token cause answers "Invalid or expired token" while the
resolved-user-missing cause answers "User not found", so the two causes
are distinguishable from the response body. -/
theorem unauthorized_message_not_uniform :
    get_current_user s0 0 [] Token.malformed =
      Except.error ⟨401, "Invalid or expired token", some "Bearer"⟩ ∧
    get_current_user s0 0 []
      (create_access_token s0 0 { sub := some "7", exp := none }
        (some 60)) =
      Except.error ⟨401, "User not found", some "Bearer"⟩ ∧
    "Invalid or expired token" ≠ "User not found" := by
  refine ⟨rfl, by rfl, by decide⟩

/-- C4 amended: every Unauthorized failure of GET /users/me — invalid
or expired token, non-integer subject, or resolved user id absent from
the store — is an HTTP 401 carrying a WWW-Authenticate challenge, but
the message is one of two: the missing-user cause has its own message,
distinguishable from the other causes. -/
theorem get_current_user_failures (s : Settings) (now : Int)
    (db : List User) (token : Token) (e : HTTPError)
    (h : get_current_user s now db token = Except.error e) :
    e.status = 401 ∧ e.www_authenticate = some "Bearer" ∧
      (e.detail = "Invalid or expired token" ∨
        e.detail = "User not found") := by
  unfold get_current_user at h
  split at h
  · cases h
    exact ⟨rfl, rfl, Or.inl rfl⟩
  · split at h
    · cases h
      exact ⟨rfl, rfl, Or.inl rfl⟩
    · split at h
      · cases h
        exact ⟨rfl, rfl, Or.inr rfl⟩
      · cases h

/-- Witness for C4's amended theorem at a malformed token against an
empty store. -/
theorem get_current_user_failures_witness :
    HTTPError.status ⟨401, "Invalid or expired token", some "Bearer"⟩ =
        401 ∧
      HTTPError.www_authenticate
        ⟨401, "Invalid or expired token", some "Bearer"⟩ = some "Bearer" ∧
      (HTTPError.detail ⟨401, "Invalid or expired token", some "Bearer"⟩ =
          "Invalid or expired token" ∨
        HTTPError.detail ⟨401, "Invalid or expired token", some "Bearer"⟩ =
          "User not found") :=
  get_current_user_failures s0 0 [] Token.malformed
    ⟨401, "Invalid or expired token", some "Bearer"⟩ rfl

/-- C5: on an existing post, for a caller whose id differs from the
post's owner, each of PUT, PATCH and DELETE fails with 403 Forbidden
and leaves the store untouched — and conversely a 403 arises exactly
when caller id and owner id differ, so the authorization decision is a
pure equality check. -/
theorem non_owner_mutation_forbidden (db : List Post)
    (caller_id post_id : Int) (pd : PostUpdate) (pp : PostPatch)
    (post : Post)
    (hfind : db.find? (fun p => p.id == post_id) = some post) :
    (update_post db caller_id post_id pd =
        (Except.error
          ⟨403, "You are not authorized to update this post", none⟩, db) ↔
      caller_id ≠ post.user_id) ∧
    (patch_post db caller_id post_id pp =
        (Except.error
          ⟨403, "You are not authorized to update this post", none⟩, db) ↔
      caller_id ≠ post.user_id) ∧
    (delete_post db caller_id post_id =
        (Except.error
          ⟨403, "You are not authorized to delete this post", none⟩, db) ↔
      caller_id ≠ post.user_id) := by
  by_cases hne : caller_id = post.user_id
  · refine ⟨⟨fun h => ?_, fun h => absurd hne h⟩,
      ⟨fun h => ?_, fun h => absurd hne h⟩,
      ⟨fun h => ?_, fun h => absurd hne h⟩⟩
    · simp [update_post, hfind, hne] at h
    · simp [patch_post, hfind, hne] at h
    · simp [delete_post, hfind, hne] at h
  · refine ⟨⟨fun _ => hne, fun _ => ?_⟩, ⟨fun _ => hne, fun _ => ?_⟩,
      ⟨fun _ => hne, fun _ => ?_⟩⟩
    · simp [update_post, hfind, hne]
    · simp [patch_post, hfind, hne]
    · simp [delete_post, hfind, hne]

/-- Witness for C5: caller 8 on the post p0 owned by user 7. -/
theorem non_owner_mutation_forbidden_witness :
    (update_post [p0] 8 1 ⟨"t1", "c1"⟩ =
        (Except.error
          ⟨403, "You are not authorized to update this post", none⟩,
          [p0]) ↔ (8 : Int) ≠ p0.user_id) ∧
    (patch_post [p0] 8 1 ⟨some "t1", none⟩ =
        (Except.error
          ⟨403, "You are not authorized to update this post", none⟩,
          [p0]) ↔ (8 : Int) ≠ p0.user_id) ∧
    (delete_post [p0] 8 1 =
        (Except.error
          ⟨403, "You are not authorized to delete this post", none⟩,
          [p0]) ↔ (8 : Int) ≠ p0.user_id) :=
  non_owner_mutation_forbidden [p0] 8 1 ⟨"t1", "c1"⟩ ⟨some "t1", none⟩ p0
    (by rfl)

/-- C6 counterexample: the claim says DELETE on an absent post id is
404 regardless of auth state, including requests with no token; but the
CurrentUser dependency runs before the handler body, so a request with
no token is answered 401 at identity resolution and the 404 branch is
never reached. -/
theorem delete_missing_post_unauthenticated_401 :
    delete_post_request s0 0 [] [] none 1 =
      (Except.error ⟨401, "Not authenticated", some "Bearer"⟩, []) := by
  rfl

/-- C6 amended: for every caller that identity resolution accepts,
DELETE on a post id absent from the store is 404 Not Found with the
store untouched, regardless of which user the caller is; a request with
no or invalid token instead fails 401 at the CurrentUser dependency
before the handler body runs. -/
theorem delete_missing_post_404 (s : Settings) (now : Int)
    (users : List User) (posts : List Post) (auth_token : Option Token)
    (u : User) (post_id : Int)
    (hauth : resolve_current_user s now users auth_token = Except.ok u)
    (habsent : posts.find? (fun p => p.id == post_id) = none) :
    delete_post_request s now users posts auth_token post_id =
      (Except.error ⟨404, "Post not found", none⟩, posts) := by
  unfold delete_post_request
  rw [hauth]
  unfold delete_post
  rw [habsent]

/-- Witness for C6's amended theorem: user u0 authenticated by tok7,
deleting post id 5 in a store holding only p0. -/
theorem delete_missing_post_404_witness :
    resolve_current_user s0 0 [u0] (some tok7) = Except.ok u0 ∧
    [p0].find? (fun p => p.id == (5 : Int)) = none ∧
    delete_post_request s0 0 [u0] [p0] (some tok7) 5 =
      (Except.error ⟨404, "Post not found", none⟩, [p0]) :=
  ⟨by rfl, by rfl, delete_missing_post_404 s0 0 [u0] [p0] (some tok7) u0 5
    (by rfl) (by rfl)⟩

/-- C7: every failing login — email matching no user, or email matching
a user whose password does not verify — is answered by one and the same
error value: HTTP 401, the fixed message "Incorrect email or password",
and a WWW-Authenticate challenge; the response does not reveal whether
the email existed. -/
theorem login_failure_uniform (vp : String → String → Bool)
    (s : Settings) (now : Int) (db : List User)
    (form_username form_password : String) (e : HTTPError)
    (h : login_for_access_token vp s now db form_username form_password =
      Except.error e) :
    e = ⟨401, "Incorrect email or password", some "Bearer"⟩ := by
  unfold login_for_access_token at h
  split at h
  · cases h
    rfl
  · split at h
    · cases h
      rfl
    · cases h

/-- Witness for C7 at an empty user store (the email-not-found
cause). -/
theorem login_failure_uniform_witness :
    (⟨401, "Incorrect email or password", some "Bearer"⟩ : HTTPError) =
      ⟨401, "Incorrect email or password", some "Bearer"⟩ :=
  login_failure_uniform (fun _ _ => false) s0 0 [] "alice@example.com"
    "pw" ⟨401, "Incorrect email or password", some "Bearer"⟩ (by rfl)

/-- C8: on a post the caller owns, PATCH overwrites exactly the fields
present in the body — each present field takes the patch's value, each
absent field keeps its previous value, and no other attribute of the
post changes. -/
theorem patch_applies_exactly_present_fields (db : List Post)
    (caller_id post_id : Int) (pp : PostPatch) (post : Post)
    (hfind : db.find? (fun p => p.id == post_id) = some post)
    (howner : caller_id = post.user_id) :
    (patch_post db caller_id post_id pp).fst =
      Except.ok { post with
        title := pp.title.getD post.title,
        content := pp.content.getD post.content } := by
  have hok : ¬ (caller_id ≠ post.user_id) := by simp [howner]
  simp only [patch_post, hfind, hok, if_neg, ite_false]
  cases htt : pp.title <;> cases hcc : pp.content <;>
    simp [apply_patch, htt, hcc]

/-- Witness for C8: the owner of p0 patches only the title. -/
theorem patch_applies_exactly_present_fields_witness :
    ([p0].find? (fun p => p.id == (1 : Int)) = some p0 ∧
      (7 : Int) = p0.user_id) ∧
    (patch_post [p0] 7 1 ⟨some "t1", none⟩).fst =
      Except.ok { p0 with
        title := (some "t1").getD p0.title,
        content := (none : Option String).getD p0.content } :=
  ⟨⟨by rfl, by rfl⟩,
    patch_applies_exactly_present_fields [p0] 7 1 ⟨some "t1", none⟩ p0
      (by rfl) (by rfl)⟩

/-- Helper: with pairwise-distinct post ids, any member of the store
whose id equals the looked-up id is the post `find?` returned. -/
theorem mem_eq_found_of_nodup_ids (db : List Post) (pid : Int)
    (post p : Post) (hnodup : (db.map Post.id).Nodup)
    (hfind : db.find? (fun q => q.id == pid) = some post)
    (hp : p ∈ db) (hpid : p.id = pid) : p = post := by
  have hpostmem : post ∈ db := List.mem_of_find?_eq_some hfind
  have hpostid : post.id = pid := by
    have := List.find?_some hfind
    simpa using this
  exact List.inj_on_of_nodup_map hnodup hp hpostmem
    (by rw [hpid, hpostid])

/-- Helper: replacing, at a looked-up id, the stored post by one with
the same fixed fields leaves every post's fixed fields unchanged across
the store. -/
theorem map_frame_fields_replace (db : List Post) (pid : Int)
    (post post' : Post) (hnodup : (db.map Post.id).Nodup)
    (hfind : db.find? (fun q => q.id == pid) = some post)
    (hframe : frame_fields post' = frame_fields post) :
    (db.map (fun p => if p.id == pid then post' else p)).map
        frame_fields = db.map frame_fields := by
  rw [List.map_map]
  apply List.map_congr_left
  intro a ha
  by_cases hid : a.id = pid
  · have haeq : a = post :=
      mem_eq_found_of_nodup_ids db pid post a hnodup hfind ha hid
    subst haeq
    simp [Function.comp, hid, hframe]
  · simp [Function.comp, hid]

/-- C9: under the store invariant that post ids are pairwise distinct,
a successful PUT and a successful PATCH each leave the post's id,
creation timestamp and owning user id exactly as they were — in the
returned post and across the whole post store — so only title and
content are ever modified after creation. -/
theorem put_patch_preserve_fixed_fields (db : List Post)
    (caller_id post_id : Int) (pd : PostUpdate) (pp : PostPatch)
    (post p1 p2 : Post) (hnodup : (db.map Post.id).Nodup)
    (hfind : db.find? (fun p => p.id == post_id) = some post)
    (h1 : (update_post db caller_id post_id pd).fst = Except.ok p1)
    (h2 : (patch_post db caller_id post_id pp).fst = Except.ok p2) :
    (frame_fields p1 = frame_fields post ∧
      frame_fields p2 = frame_fields post) ∧
    ((update_post db caller_id post_id pd).snd.map frame_fields =
        db.map frame_fields ∧
      (patch_post db caller_id post_id pp).snd.map frame_fields =
        db.map frame_fields) := by
  have hown : caller_id = post.user_id := by
    by_contra hne
    simp [update_post, hfind, hne] at h1
  have hok : ¬ (caller_id ≠ post.user_id) := by simp [hown]
  have hp1 : p1 = { post with title := pd.title, content := pd.content } := by
    simp [update_post, hfind, hok] at h1
    exact h1.symm
  have hp2 : p2 = apply_patch post pp := by
    simp [patch_post, hfind, hok] at h2
    exact h2.symm
  have hf2 : frame_fields (apply_patch post pp) = frame_fields post := by
    unfold apply_patch
    cases pp.title <;> cases pp.content <;> simp [frame_fields]
  refine ⟨⟨?_, ?_⟩, ?_, ?_⟩
  · rw [hp1]
    simp [frame_fields]
  · rw [hp2, hf2]
  · simp only [update_post, hfind, hok, ite_false, if_neg]
    exact map_frame_fields_replace db post_id post _ hnodup hfind
      (by simp [frame_fields])
  · simp only [patch_post, hfind, hok, ite_false, if_neg]
    exact map_frame_fields_replace db post_id post _ hnodup hfind hf2

/-- Witness for C9: the owner of p0 runs a full update and a partial
update on a one-post store. -/
theorem put_patch_preserve_fixed_fields_witness :
    (frame_fields { p0 with title := "t1", content := "c1" } =
        frame_fields p0 ∧
      frame_fields (apply_patch p0 ⟨some "t2", none⟩) =
        frame_fields p0) ∧
    ((update_post [p0] 7 1 ⟨"t1", "c1"⟩).snd.map frame_fields =
        [p0].map frame_fields ∧
      (patch_post [p0] 7 1 ⟨some "t2", none⟩).snd.map frame_fields =
        [p0].map frame_fields) :=
  put_patch_preserve_fixed_fields [p0] 7 1 ⟨"t1", "c1"⟩
    ⟨some "t2", none⟩ p0 { p0 with title := "t1", content := "c1" }
    (apply_patch p0 ⟨some "t2", none⟩) (by decide) (by rfl) (by rfl)
    (by rfl)

/-- C10: the successful response of GET /users/me is the caller pushed
through the UserPrivate schema, whose only field is the email address —
two users with the same email serialize identically, so neither id nor
username nor password hash reaches the response. -/
theorem me_response_only_email (s : Settings) (now : Int)
    (db : List User) (token : Token) (u : User)
    (h : get_current_user s now db token = Except.ok u) :
    get_current_user_response s now db token =
      Except.ok { email := u.email } ∧
    ∀ v : User, v.email = u.email →
      UserPrivate.from_user v = UserPrivate.from_user u := by
  constructor
  · unfold get_current_user_response
    rw [h]
    rfl
  · intro v hv
    simp [UserPrivate.from_user, hv]

/-- Witness for C10: u0 resolved from tok7 against a one-user store,
and u1 — a different id, username and hash but the same email —
serializing to the same response. -/
theorem me_response_only_email_witness :
    get_current_user_response s0 0 [u0] tok7 =
      Except.ok { email := u0.email } ∧
    UserPrivate.from_user u1 = UserPrivate.from_user u0 :=
  ⟨(me_response_only_email s0 0 [u0] tok7 u0 (by rfl)).1,
    (me_response_only_email s0 0 [u0] tok7 u0 (by rfl)).2 u1 (by rfl)⟩

end Blog
